import Mathlib

/-!
Shallow embedding of the KPA scaler core
(`src/pkg/reconciler/v1alpha1/revision/resources/utils/utils.go`,
package `autoscaling`): the configuration store
(`receiveAutoscalerConfig` / `getAutoscalerConfig`), the bounds helper
`applyBounds`, and the scale decision function `Scale`.

Machine integers (`int32` replica counts and durations) are modelled as
`Int` / `Nat`: the code only compares and copies them, never does
arithmetic, so no overflow can occur and the embedding is exact.
The scale-accessor collaborator is modelled by its observable behaviour:
the `Get` outcome is an input (`Except Unit Int`), the `Update` outcome is
an input flag, and the value written by `Update` (if any) is recorded in
the result.
-/

namespace Autoscaling

/-- `ScaleUnknown` sentinel from the source: `const ScaleUnknown = -1`. -/
def ScaleUnknown : Int := -1

/-- Activation states of a KPA status. Modelled from the spec: the status
has "three mutually exclusive states" `Activating` (Active=Unknown,
`IsActivating()`), `Active` (Active=True, `IsReady()`) and `Inactive`
(Active=False); the `kpa.Status` condition machinery itself is outside
`src/`. -/
inductive ActivationState
  | activating
  | active
  | inactive
  deriving Repr, DecidableEq

/-- KPA status as consumed by `Scale`. `activeFor` / `inactiveFor` are
modelled from the spec: the status records "has state X held for at least
duration D since timestamp T"; we carry the elapsed durations directly. -/
structure KPAStatus where
  state : ActivationState
  activeFor : Nat
  inactiveFor : Nat
  deriving Repr, DecidableEq

/-- Modelled from the spec: `CanMarkInactive(d)` — the target "has been
continuously active for at least" duration `d` (the method lives on the
KPA status outside `src/`). -/
def KPAStatus.canMarkInactive (s : KPAStatus) (d : Nat) : Bool :=
  d ≤ s.activeFor

/-- Modelled from the spec: `CanScaleToZero(d)` — the target "has been
continuously inactive for at least" duration `d` (the method lives on the
KPA status outside `src/`). -/
def KPAStatus.canScaleToZero (s : KPAStatus) (d : Nat) : Bool :=
  d ≤ s.inactiveFor

/-- The autoscaler configuration fields read by `Scale`
(`config.ScaleToZeroIdlePeriod`, `config.ScaleToZeroGracePeriod`),
durations modelled as `Nat`. -/
structure Config where
  scaleToZeroIdlePeriod : Nat
  scaleToZeroGracePeriod : Nat
  deriving Repr, DecidableEq

/-- The KPA object as consumed by `Scale`.  `ownedByRevision` is the
outcome of the `metav1.GetControllerOf` ownership guard;
`targetRefValid` is the outcome of `schema.ParseGroupVersion` on
`Spec.ScaleTargetRef.APIVersion`; `minScale`/`maxScale` are
`kpa.ScaleBounds()` (annotation-sourced, `0` meaning unbounded max). -/
structure PodAutoscaler where
  ownedByRevision : Bool
  targetRefValid : Bool
  status : KPAStatus
  minScale : Int
  maxScale : Int
  deriving Repr, DecidableEq

/-- Outcome of `receiveAutoscalerConfig`: the store either fatally exits
(`logger.Fatalf`), retains the existing config (`logger.Errorf`), or
installs the new one. -/
inductive ReceiveOutcome
  | fatalError
  | retainedExisting
  | installed
  deriving Repr, DecidableEq

/-- `receiveAutoscalerConfig` (utils.go lines 87-101): `current` is the
stored `ks.autoscalerConfig` (`none` = nil, never installed), `parsed` is
the outcome of `autoscaler.NewConfigFromConfigMap` (`none` = parse error).
Returns the outcome and the stored configuration afterwards. -/
def receiveAutoscalerConfig (current : Option Config) (parsed : Option Config) :
    ReceiveOutcome × Option Config :=
  match parsed with
  | none =>
    match current with
    | some c => (ReceiveOutcome.retainedExisting, some c)
    | none => (ReceiveOutcome.fatalError, none)
  | some newCfg => (ReceiveOutcome.installed, some newCfg)

/-- `getAutoscalerConfig` (utils.go lines 103-107): returns
`ks.autoscalerConfig.DeepCopy()`. `DeepCopy` is generated code outside
`src/`; modelled from the spec ("returns a deep, independent copy"): on a
pure value a deep copy is the value itself, and the generated nil-check
maps `none` to `none`. -/
def getAutoscalerConfig (stored : Option Config) : Option Config :=
  stored

/-- `applyBounds` (utils.go lines 109-120), precondition per the source
comment: `0 <= min <= max && 0 <= x` (with `max == 0` meaning unbounded). -/
def applyBounds (mn mx : Int) : Int → Int := fun x =>
  if x < mn then mn
  else if mx ≠ 0 ∧ x > mx then mx
  else x

/-- Result of the scale-to-zero gating block (utils.go lines 152-177):
`panic` models the nil-pointer dereference of an uninitialized
configuration; `earlyReturn v` models `return desiredScale, nil` out of
the whole function; `proceed ds` falls through with the (possibly
updated) desired scale. -/
inductive GateResult
  | panic
  | earlyReturn (v : Int)
  | proceed (ds : Int)
  deriving Repr, DecidableEq

/-- The `if desiredScale == 0` gating block of `Scale` (utils.go lines
152-177).  `cfg` is the snapshot from `getAutoscalerConfig`; in the
`Activating` branch the snapshot's fields are never read, so a `none`
(nil) configuration only panics in the `Active`/`Inactive` branches,
where `config.ScaleToZeroIdlePeriod` / `config.ScaleToZeroGracePeriod`
are dereferenced. -/
def scaleToZeroGate (cfg : Option Config) (st : KPAStatus) (desiredScale : Int) :
    GateResult :=
  if desiredScale = 0 then
    match st.state with
    | ActivationState.activating => GateResult.proceed ScaleUnknown
    | ActivationState.active =>
      match cfg with
      | none => GateResult.panic
      | some c =>
        if st.canMarkInactive c.scaleToZeroIdlePeriod then
          GateResult.earlyReturn desiredScale
        else
          GateResult.proceed 1
    | ActivationState.inactive =>
      match cfg with
      | none => GateResult.panic
      | some c =>
        if ¬ st.canScaleToZero c.scaleToZeroGracePeriod then
          GateResult.earlyReturn desiredScale
        else
          GateResult.proceed desiredScale
  else
    GateResult.proceed desiredScale

/-- Observable result of one `Scale` invocation: the returned scale, the
returned error (as a flag), and the replica value passed to the
scale-accessor `Update` call, if one was issued. -/
structure ScaleResult where
  returned : Int
  err : Bool
  update : Option Int
  deriving Repr, DecidableEq

/-- A `Scale` invocation either produces a result or panics (nil
configuration dereference). -/
inductive ScaleOutcome
  | result (r : ScaleResult)
  | panic
  deriving Repr, DecidableEq

/-- `Scale` (utils.go lines 123-210).  `cfg` is the stored configuration
(read through `getAutoscalerConfig`), `getReplicas` the outcome of the
scale-accessor `Get` (`.ok n` = current replicas `n`), `updateFails`
whether an issued `Update` call fails. -/
def Scale (cfg : Option Config) (kpa : PodAutoscaler)
    (getReplicas : Except Unit Int) (updateFails : Bool) (desiredScale : Int) :
    ScaleOutcome :=
  if ¬ kpa.ownedByRevision then
    ScaleOutcome.result ⟨desiredScale, false, none⟩
  else if ¬ kpa.targetRefValid then
    ScaleOutcome.result ⟨desiredScale, true, none⟩
  else
    match getReplicas with
    | Except.error _ => ScaleOutcome.result ⟨desiredScale, true, none⟩
    | Except.ok currentScale =>
      match scaleToZeroGate (getAutoscalerConfig cfg) kpa.status desiredScale with
      | GateResult.panic => ScaleOutcome.panic
      | GateResult.earlyReturn v => ScaleOutcome.result ⟨v, false, none⟩
      | GateResult.proceed ds0 =>
        let ds1 := if currentScale = 0 ∧ ds0 = -1 then 1 else ds0
        if ds1 < 0 then
          ScaleOutcome.result ⟨ds1, false, none⟩
        else
          let ds2 := applyBounds kpa.minScale kpa.maxScale ds1
          if ds2 = currentScale then
            ScaleOutcome.result ⟨ds2, false, none⟩
          else
            ScaleOutcome.result ⟨ds2, updateFails, some ds2⟩

end Autoscaling

namespace Autoscaling

/-- Helper: under the documented bounds precondition, `applyBounds` clamps
a non-negative value into the bounds interval. -/
theorem applyBounds_mem (mn mx x : Int) (h1 : 0 ≤ mn)
    (h2 : mx = 0 ∨ mn ≤ mx) (h3 : 0 ≤ x) :
    mn ≤ applyBounds mn mx x ∧ (mx ≠ 0 → applyBounds mn mx x ≤ mx) ∧
      0 ≤ applyBounds mn mx x := by
  unfold applyBounds
  split_ifs <;> omega

/-- Helper: `applyBounds` fixes any value already inside the bounds. -/
theorem applyBounds_eq_self (mn mx x : Int) (h1 : mn ≤ x)
    (h2 : mx = 0 ∨ x ≤ mx) : applyBounds mn mx x = x := by
  unfold applyBounds
  split_ifs <;> omega

/-- Helper: on an owned target with a valid reference and a successful
`Get`, `Scale` reduces to the gate dispatch followed by scale-from-zero,
unknown passthrough, bounds clamp and the no-op check. -/
theorem Scale_ok_unfold (cfg : Option Config) (kpa : PodAutoscaler)
    (current : Int) (uf : Bool) (ds : Int)
    (hOwn : kpa.ownedByRevision = true) (hRef : kpa.targetRefValid = true) :
    Scale cfg kpa (Except.ok current) uf ds =
      match scaleToZeroGate (getAutoscalerConfig cfg) kpa.status ds with
      | GateResult.panic => ScaleOutcome.panic
      | GateResult.earlyReturn v => ScaleOutcome.result ⟨v, false, none⟩
      | GateResult.proceed ds0 =>
        let ds1 := if current = 0 ∧ ds0 = -1 then 1 else ds0
        if ds1 < 0 then ScaleOutcome.result ⟨ds1, false, none⟩
        else
          let ds2 := applyBounds kpa.minScale kpa.maxScale ds1
          if ds2 = current then ScaleOutcome.result ⟨ds2, false, none⟩
          else ScaleOutcome.result ⟨ds2, uf, some ds2⟩ := by
  unfold Scale
  simp [hOwn, hRef]

/-- Helper: exhaustive case analysis of a non-panicking `Scale`
invocation on an owned target with a successful `Get`. -/
theorem Scale_result_cases (cfg : Option Config) (kpa : PodAutoscaler)
    (current : Int) (uf : Bool) (ds : Int) (r : ScaleResult)
    (hOwn : kpa.ownedByRevision = true) (hRef : kpa.targetRefValid = true)
    (hr : Scale cfg kpa (Except.ok current) uf ds = ScaleOutcome.result r) :
    (∃ v, scaleToZeroGate (getAutoscalerConfig cfg) kpa.status ds =
        GateResult.earlyReturn v ∧ r = ⟨v, false, none⟩) ∨
    (∃ ds1, (∃ ds0, scaleToZeroGate (getAutoscalerConfig cfg) kpa.status ds =
        GateResult.proceed ds0 ∧
        ds1 = if current = 0 ∧ ds0 = -1 then 1 else ds0) ∧
      ((ds1 < 0 ∧ r = ⟨ds1, false, none⟩) ∨
       (0 ≤ ds1 ∧ applyBounds kpa.minScale kpa.maxScale ds1 = current ∧
         r = ⟨current, false, none⟩) ∨
       (0 ≤ ds1 ∧ applyBounds kpa.minScale kpa.maxScale ds1 ≠ current ∧
         r = ⟨applyBounds kpa.minScale kpa.maxScale ds1, uf,
              some (applyBounds kpa.minScale kpa.maxScale ds1)⟩))) := by
  rw [Scale_ok_unfold cfg kpa current uf ds hOwn hRef] at hr
  cases hg : scaleToZeroGate (getAutoscalerConfig cfg) kpa.status ds <;>
    rw [hg] at hr <;> simp only [] at hr
  case panic => exact absurd hr (by simp)
  case earlyReturn v =>
    left
    refine ⟨v, rfl, ?_⟩
    exact ((ScaleOutcome.result.injEq _ _).mp hr).symm
  case proceed ds0 =>
    right
    revert hr
    generalize hds1 : (if current = 0 ∧ ds0 = -1 then 1 else ds0) = ds1
    intro hr
    refine ⟨ds1, ⟨ds0, rfl, hds1.symm⟩, ?_⟩
    split at hr
    · left
      exact ⟨by assumption, ((ScaleOutcome.result.injEq _ _).mp hr).symm⟩
    · split at hr
      · right; left
        refine ⟨by omega, by assumption, ?_⟩
        have h2 := (ScaleOutcome.result.injEq _ _).mp hr
        rw [← h2]
        simp [*]
      · right; right
        exact ⟨by omega, by assumption,
          ((ScaleOutcome.result.injEq _ _).mp hr).symm⟩

example : Scale (some ⟨5, 5⟩) ⟨true, true, ⟨ActivationState.activating, 0, 0⟩, 0, 0⟩
    (Except.ok 3) false 0 = ScaleOutcome.result ⟨-1, false, none⟩ := by decide

example : Scale (some ⟨5, 5⟩) ⟨true, true, ⟨ActivationState.activating, 0, 0⟩, 0, 0⟩
    (Except.ok 0) false 0 = ScaleOutcome.result ⟨1, false, some 1⟩ := by decide

example : Scale (some ⟨5, 5⟩) ⟨true, true, ⟨ActivationState.active, 6, 0⟩, 0, 0⟩
    (Except.ok 3) false 0 = ScaleOutcome.result ⟨0, false, none⟩ := by decide

example : Scale (some ⟨5, 5⟩) ⟨true, true, ⟨ActivationState.active, 1, 0⟩, 0, 0⟩
    (Except.ok 3) false 0 = ScaleOutcome.result ⟨1, false, some 1⟩ := by decide

example : Scale (some ⟨5, 5⟩) ⟨true, true, ⟨ActivationState.inactive, 0, 6⟩, 0, 0⟩
    (Except.ok 3) false 0 = ScaleOutcome.result ⟨0, false, some 0⟩ := by decide

example : Scale none ⟨true, true, ⟨ActivationState.active, 6, 0⟩, 0, 0⟩
    (Except.ok 3) false 0 = ScaleOutcome.panic := by decide

/-- C1 counterexample: an Activating target with `desiredScale = 0` and
current replicas `0` (owned, bounds `(0, 0)`) does NOT return `Unknown`
with no update — scale-from-zero turns the sentinel into `1` and an
`Update` call is issued. -/
theorem c1_activating_counterexample :
    Scale (some ⟨5, 5⟩) ⟨true, true, ⟨ActivationState.activating, 0, 0⟩, 0, 0⟩
      (Except.ok 0) false 0 = ScaleOutcome.result ⟨1, false, some 1⟩ ∧
    ScaleOutcome.result (⟨1, false, some 1⟩ : ScaleResult) ≠
      ScaleOutcome.result ⟨ScaleUnknown, false, none⟩ := by
  decide

/-- C1 (amended): for every owned target with a valid target reference,
`State = Activating`, input `desiredScale = 0` and a successfully fetched
current replica count that is NOT `0`, `Scale` returns the sentinel
`Unknown (-1)` and issues no `Update` call. -/
theorem scale_activating_returns_unknown (cfg : Option Config)
    (kpa : PodAutoscaler) (current : Int) (uf : Bool)
    (hOwn : kpa.ownedByRevision = true) (hRef : kpa.targetRefValid = true)
    (hAct : kpa.status.state = ActivationState.activating)
    (hCur : current ≠ 0) :
    Scale cfg kpa (Except.ok current) uf 0 =
      ScaleOutcome.result ⟨ScaleUnknown, false, none⟩ := by
  unfold Scale scaleToZeroGate getAutoscalerConfig
  simp [hOwn, hRef, hAct, hCur, ScaleUnknown]

/-- C1 witness: concrete Activating target with current replicas `3`. -/
theorem scale_activating_returns_unknown_witness :
    Scale (some ⟨5, 5⟩) ⟨true, true, ⟨ActivationState.activating, 0, 0⟩, 0, 0⟩
      (Except.ok 3) false 0 = ScaleOutcome.result ⟨ScaleUnknown, false, none⟩ :=
  scale_activating_returns_unknown _ _ _ _ rfl rfl rfl (by decide)

/-- C2 counterexample: an Active target whose idle period has elapsed
(`activeFor = 6 ≥ 5`), with current replicas `3` and `desiredScale = 0`,
returns `0` (the input `desiredScale`), not the current replica count `3`
as the claim states. -/
theorem c2_returns_input_counterexample :
    Scale (some ⟨5, 5⟩) ⟨true, true, ⟨ActivationState.active, 6, 0⟩, 0, 0⟩
      (Except.ok 3) false 0 = ScaleOutcome.result ⟨0, false, none⟩ ∧
    (0 : Int) ≠ 3 := by
  decide

/-- C2 (amended): for every owned target with `desiredScale = 0` that is
either (a) Active with the idle period already elapsed, or (b) Inactive
with the grace period not yet elapsed, `Scale` returns the input
`desiredScale` (that is, `0`) unchanged — not the current replica count —
and issues no `Update` call. -/
theorem scale_hysteresis_no_action (cfg : Config) (kpa : PodAutoscaler)
    (current : Int) (uf : Bool)
    (hOwn : kpa.ownedByRevision = true) (hRef : kpa.targetRefValid = true)
    (hCase : (kpa.status.state = ActivationState.active ∧
        kpa.status.canMarkInactive cfg.scaleToZeroIdlePeriod = true) ∨
      (kpa.status.state = ActivationState.inactive ∧
        kpa.status.canScaleToZero cfg.scaleToZeroGracePeriod = false)) :
    Scale (some cfg) kpa (Except.ok current) uf 0 =
      ScaleOutcome.result ⟨0, false, none⟩ := by
  unfold Scale scaleToZeroGate getAutoscalerConfig
  rcases hCase with ⟨hSt, hP⟩ | ⟨hSt, hP⟩ <;> simp [hOwn, hRef, hSt, hP]

/-- C2 witness: concrete Active target, idle period `5`, active for `6`,
current replicas `3`. -/
theorem scale_hysteresis_no_action_witness :
    Scale (some ⟨5, 5⟩) ⟨true, true, ⟨ActivationState.active, 6, 0⟩, 0, 0⟩
      (Except.ok 3) false 0 = ScaleOutcome.result ⟨0, false, none⟩ :=
  scale_hysteresis_no_action _ _ _ _ rfl rfl (Or.inl ⟨rfl, by decide⟩)

/-- C3 counterexample: an Active target with the idle period not elapsed,
`desiredScale = 0`, scale bounds `min = 2, max = 0` and current replicas
`1` returns `2` (not `1` as the claim states for any bounds) and issues an
`Update` call even though current replicas equal `1`. -/
theorem c3_bounds_counterexample :
    Scale (some ⟨5, 5⟩) ⟨true, true, ⟨ActivationState.active, 1, 0⟩, 2, 0⟩
      (Except.ok 1) false 0 = ScaleOutcome.result ⟨2, false, some 2⟩ ∧
    (2 : Int) ≠ 1 := by
  decide

/-- C3 (amended): for every owned target with `State = Active`, input
`desiredScale = 0` and the idle period not yet elapsed, under the
documented bounds precondition (`0 ≤ min`, `max = 0 ∨ min ≤ max`) and
provided `min ≤ 1`, `Scale` returns exactly `1`, and an `Update` call is
issued if and only if the current replica count is not `1`. -/
theorem scale_active_idle_pending_scales_to_one (cfg : Config)
    (kpa : PodAutoscaler) (current : Int) (uf : Bool)
    (hOwn : kpa.ownedByRevision = true) (hRef : kpa.targetRefValid = true)
    (hAct : kpa.status.state = ActivationState.active)
    (hIdle : kpa.status.canMarkInactive cfg.scaleToZeroIdlePeriod = false)
    (hMin0 : 0 ≤ kpa.minScale)
    (hMinMax : kpa.maxScale = 0 ∨ kpa.minScale ≤ kpa.maxScale)
    (hMin1 : kpa.minScale ≤ 1) :
    Scale (some cfg) kpa (Except.ok current) uf 0 =
      if current = 1 then ScaleOutcome.result ⟨1, false, none⟩
      else ScaleOutcome.result ⟨1, uf, some 1⟩ := by
  have hclamp : applyBounds kpa.minScale kpa.maxScale 1 = 1 :=
    applyBounds_eq_self _ _ _ hMin1 (by omega)
  unfold Scale scaleToZeroGate getAutoscalerConfig
  simp only [hOwn, hRef, hAct, hIdle, hclamp]
  by_cases hC : current = 1 <;> simp [hC, hclamp]
  omega

/-- C3 witness: concrete Active target, idle period `5`, active for only
`1`, bounds `(0, 0)`, current replicas `3`: scales to `1` with an update. -/
theorem scale_active_idle_pending_scales_to_one_witness :
    Scale (some ⟨5, 5⟩) ⟨true, true, ⟨ActivationState.active, 1, 0⟩, 0, 0⟩
      (Except.ok 3) false 0 = ScaleOutcome.result ⟨1, false, some 1⟩ := by
  have h := scale_active_idle_pending_scales_to_one ⟨5, 5⟩
    ⟨true, true, ⟨ActivationState.active, 1, 0⟩, 0, 0⟩ 3 false
    rfl rfl rfl (by decide) (by decide) (Or.inl rfl) (by decide)
  simpa using h

/-- C4 counterexample: with current replicas `0`, input `desiredScale =
-1` (so the post-gating desired scale is the `Unknown` sentinel) and scale
bounds `min = 5, max = 0`, `Scale` returns `5`, not exactly `1` as the
claim states for any bounds. -/
theorem c4_bounds_counterexample :
    Scale (some ⟨5, 5⟩) ⟨true, true, ⟨ActivationState.active, 0, 0⟩, 5, 0⟩
      (Except.ok 0) false (-1) = ScaleOutcome.result ⟨5, false, some 5⟩ ∧
    (5 : Int) ≠ 1 := by
  decide

/-- C4 (amended): for every invocation on an owned target where the
fetched current replica count is `0` and the desired scale after the
scale-to-zero gating is the sentinel `Unknown (-1)`, under the documented
bounds precondition (`0 ≤ min`, `max = 0 ∨ min ≤ max`) and provided
`min ≤ 1`, `Scale` returns exactly `1` and issues an `Update` call
writing `1`. -/
theorem scale_from_zero_scales_to_one (cfg : Option Config)
    (kpa : PodAutoscaler) (ds : Int) (uf : Bool)
    (hOwn : kpa.ownedByRevision = true) (hRef : kpa.targetRefValid = true)
    (hGate : scaleToZeroGate (getAutoscalerConfig cfg) kpa.status ds =
      GateResult.proceed (-1))
    (hMin0 : 0 ≤ kpa.minScale)
    (hMinMax : kpa.maxScale = 0 ∨ kpa.minScale ≤ kpa.maxScale)
    (hMin1 : kpa.minScale ≤ 1) :
    Scale cfg kpa (Except.ok 0) uf ds = ScaleOutcome.result ⟨1, uf, some 1⟩ := by
  have hclamp : applyBounds kpa.minScale kpa.maxScale 1 = 1 :=
    applyBounds_eq_self _ _ _ hMin1 (by omega)
  unfold Scale
  rw [hGate]
  simp [hOwn, hRef, hclamp]

/-- C4 witness: concrete target at `0` replicas with input desired scale
`-1` (gating is skipped since the input is not `0`) and bounds `(0, 0)`. -/
theorem scale_from_zero_scales_to_one_witness :
    Scale none ⟨true, true, ⟨ActivationState.active, 0, 0⟩, 0, 0⟩
      (Except.ok 0) false (-1) = ScaleOutcome.result ⟨1, false, some 1⟩ :=
  scale_from_zero_scales_to_one none
    ⟨true, true, ⟨ActivationState.active, 0, 0⟩, 0, 0⟩ (-1) false
    rfl rfl (by decide) (by decide) (Or.inl rfl) (by decide)

/-- C5: `applyBounds` is idempotent on non-negative inputs under the
documented precondition (`0 ≤ min`, `max = 0 ∨ min ≤ max`); for
`min = 1, max = 10` it maps `0 ↦ 1`, `5 ↦ 5`, `20 ↦ 10`, and for
`max = 0` (unbounded) it maps `1000 ↦ 1000`. -/
theorem applyBounds_idempotent_and_values :
    (∀ mn mx x : Int, 0 ≤ mn → (mx = 0 ∨ mn ≤ mx) → 0 ≤ x →
      applyBounds mn mx (applyBounds mn mx x) = applyBounds mn mx x) ∧
    applyBounds 1 10 0 = 1 ∧ applyBounds 1 10 5 = 5 ∧
    applyBounds 1 10 20 = 10 ∧ applyBounds 1 0 1000 = 1000 := by
  refine ⟨?_, by decide, by decide, by decide, by decide⟩
  intro mn mx x h1 h2 h3
  unfold applyBounds
  split_ifs <;> omega

/-- C5 witness: idempotence instantiated at `min = 1, max = 10, x = 20`. -/
theorem applyBounds_idempotent_and_values_witness :
    applyBounds 1 10 (applyBounds 1 10 20) = applyBounds 1 10 20 :=
  applyBounds_idempotent_and_values.1 1 10 20 (by decide) (Or.inr (by decide))
    (by decide)

/-- C6: on an owned target with a valid target reference, (a) if the
scale-accessor `Get` fails, `Scale` propagates the error, returns the
input `desiredScale` and issues no `Update` call; (b) if the `Update`
call fails, every result whose invocation issued an `Update` carries the
error and still returns exactly the value it attempted to write. -/
theorem scale_error_propagation (cfg : Option Config) (kpa : PodAutoscaler)
    (ds current : Int) (uf : Bool) (e : Unit)
    (hOwn : kpa.ownedByRevision = true) (hRef : kpa.targetRefValid = true) :
    Scale cfg kpa (Except.error e) uf ds = ScaleOutcome.result ⟨ds, true, none⟩ ∧
    (∀ r : ScaleResult,
      Scale cfg kpa (Except.ok current) true ds = ScaleOutcome.result r →
      r.update ≠ none → r.err = true ∧ r.update = some r.returned) := by
  constructor
  · unfold Scale
    simp [hOwn, hRef]
  · intro r hr hu
    rcases Scale_result_cases cfg kpa current true ds r hOwn hRef hr with
      ⟨v, _, rfl⟩ | ⟨ds1, _, ⟨_, rfl⟩ | ⟨_, _, rfl⟩ | ⟨_, _, rfl⟩⟩
    · exact absurd rfl hu
    · exact absurd rfl hu
    · exact absurd rfl hu
    · exact ⟨rfl, rfl⟩

/-- C6 witness: a failed `Get` on a concrete target propagates the error
with the input desired scale `7`; a failed `Update` on a concrete target
(current `3`, desired `5`) returns the attempted value with the error. -/
theorem scale_error_propagation_witness :
    Scale none ⟨true, true, ⟨ActivationState.active, 0, 0⟩, 0, 0⟩
        (Except.error ()) false 7 = ScaleOutcome.result ⟨7, true, none⟩ ∧
    ((⟨5, true, some 5⟩ : ScaleResult).err = true ∧
      (⟨5, true, some 5⟩ : ScaleResult).update =
        some (⟨5, true, some 5⟩ : ScaleResult).returned) := by
  have h1 := scale_error_propagation none
    ⟨true, true, ⟨ActivationState.active, 0, 0⟩, 0, 0⟩ 7 3 false () rfl rfl
  have h2 := scale_error_propagation none
    ⟨true, true, ⟨ActivationState.active, 0, 0⟩, 0, 0⟩ 5 3 false () rfl rfl
  exact ⟨h1.1, h2.2 ⟨5, true, some 5⟩ (by decide) (by decide)⟩

/-- C7: if an incoming configuration update fails to parse while a good
configuration is already stored, `receiveAutoscalerConfig` retains the
stored configuration unchanged; if parsing succeeds, the stored
configuration is replaced wholesale with the new value. -/
theorem receiveAutoscalerConfig_retain_or_replace (c newCfg : Config)
    (cur : Option Config) :
    receiveAutoscalerConfig (some c) none =
      (ReceiveOutcome.retainedExisting, some c) ∧
    receiveAutoscalerConfig cur (some newCfg) =
      (ReceiveOutcome.installed, some newCfg) :=
  ⟨rfl, rfl⟩

/-- C8 counterexample: with the configuration never installed (`none`), a
`Scale` call with `desiredScale = 0` on an owned Activating target whose
scale resource resolves is NOT fatal: the configuration fields are never
dereferenced in the Activating branch and the call completes, returning
the `Unknown` sentinel. -/
theorem c8_activating_not_fatal_counterexample :
    Scale none ⟨true, true, ⟨ActivationState.activating, 0, 0⟩, 0, 0⟩
      (Except.ok 5) false 0 = ScaleOutcome.result ⟨ScaleUnknown, false, none⟩ ∧
    ScaleOutcome.result (⟨ScaleUnknown, false, none⟩ : ScaleResult) ≠
      ScaleOutcome.panic := by
  decide

/-- C8 (amended): if no configuration has ever been successfully
installed, a `Scale` call with `desiredScale = 0` on an owned target whose
scale resource resolves is fatal (a nil-configuration dereference)
whenever the target's state is Active or Inactive — the two branches that
read the configuration fields; for an Activating target the call is not
fatal: that branch never reads the configuration snapshot and the call
completes. -/
theorem scale_nil_config_panics (kpa : PodAutoscaler) (current : Int)
    (uf : Bool)
    (hOwn : kpa.ownedByRevision = true) (hRef : kpa.targetRefValid = true)
    (hState : kpa.status.state ≠ ActivationState.activating) :
    Scale none kpa (Except.ok current) uf 0 = ScaleOutcome.panic := by
  rw [Scale_ok_unfold none kpa current uf 0 hOwn hRef]
  unfold scaleToZeroGate getAutoscalerConfig
  cases h : kpa.status.state
  · exact absurd h hState
  · simp [h]
  · simp [h]

/-- C8 witness: concrete Active target, configuration never installed. -/
theorem scale_nil_config_panics_witness :
    Scale none ⟨true, true, ⟨ActivationState.active, 0, 0⟩, 0, 0⟩
      (Except.ok 3) false 0 = ScaleOutcome.panic :=
  scale_nil_config_panics _ _ _ rfl rfl (by decide)

/-- C9: no-op law — for every invocation on an owned target whose gating
falls through (result `proceed g`), if the desired scale after the
scale-from-zero step is non-negative and its bounds clamp equals the
fetched current replica count, `Scale` returns that value with no error
and issues no `Update` call. -/
theorem scale_noop_no_update (cfg : Option Config) (kpa : PodAutoscaler)
    (ds g current : Int) (uf : Bool)
    (hOwn : kpa.ownedByRevision = true) (hRef : kpa.targetRefValid = true)
    (hGate : scaleToZeroGate (getAutoscalerConfig cfg) kpa.status ds =
      GateResult.proceed g)
    (g1 : Int) (hg1 : g1 = if current = 0 ∧ g = -1 then 1 else g)
    (h0 : 0 ≤ g1)
    (hclamp : applyBounds kpa.minScale kpa.maxScale g1 = current) :
    Scale cfg kpa (Except.ok current) uf ds =
      ScaleOutcome.result ⟨current, false, none⟩ := by
  rw [Scale_ok_unfold cfg kpa current uf ds hOwn hRef, hGate]
  simp only [← hg1, hclamp]
  rw [if_neg (by omega)]
  simp

/-- C9 witness: concrete no-op — desired scale `5`, current replicas `5`,
bounds `(0, 0)`: the value is returned with no update. -/
theorem scale_noop_no_update_witness :
    Scale none ⟨true, true, ⟨ActivationState.active, 0, 0⟩, 0, 0⟩
      (Except.ok 5) false 5 = ScaleOutcome.result ⟨5, false, none⟩ :=
  scale_noop_no_update none ⟨true, true, ⟨ActivationState.active, 0, 0⟩, 0, 0⟩
    5 5 5 false rfl rfl (by decide) 5 (by decide) (by decide) (by decide)

/-- C10 (implicit invariant): under the documented bounds precondition
(`0 ≤ min`, `max = 0 ∨ min ≤ max`), every replica count that `Scale`
actually writes through the scale-accessor `Update` call is `≥ min`,
`≤ max` whenever `max ≠ 0`, and non-negative — for any input
`desiredScale`. -/
theorem scale_update_within_bounds (cfg : Option Config)
    (kpa : PodAutoscaler) (current ds : Int) (uf : Bool) (r : ScaleResult)
    (v : Int)
    (hOwn : kpa.ownedByRevision = true) (hRef : kpa.targetRefValid = true)
    (hMin0 : 0 ≤ kpa.minScale)
    (hMinMax : kpa.maxScale = 0 ∨ kpa.minScale ≤ kpa.maxScale)
    (hr : Scale cfg kpa (Except.ok current) uf ds = ScaleOutcome.result r)
    (hv : r.update = some v) :
    kpa.minScale ≤ v ∧ (kpa.maxScale ≠ 0 → v ≤ kpa.maxScale) ∧ 0 ≤ v := by
  rcases Scale_result_cases cfg kpa current uf ds r hOwn hRef hr with
    ⟨w, _, rfl⟩ | ⟨ds1, _, ⟨_, rfl⟩ | ⟨_, _, rfl⟩ | ⟨h0, _, rfl⟩⟩
  · simp at hv
  · simp at hv
  · simp at hv
  · have hb := applyBounds_mem kpa.minScale kpa.maxScale ds1 hMin0 hMinMax h0
    have hveq : applyBounds kpa.minScale kpa.maxScale ds1 = v :=
      Option.some.inj hv
    rw [← hveq]
    exact hb

/-- C10 witness: concrete invocation (bounds `(1, 10)`, current `3`,
desired `5`) whose `Update` writes `5`, which lies within the bounds. -/
theorem scale_update_within_bounds_witness :
    (1 : Int) ≤ 5 ∧ ((10 : Int) ≠ 0 → (5 : Int) ≤ 10) ∧ (0 : Int) ≤ 5 :=
  scale_update_within_bounds none
    ⟨true, true, ⟨ActivationState.active, 0, 0⟩, 1, 10⟩ 3 5 false
    ⟨5, false, some 5⟩ 5 rfl rfl (by decide) (Or.inr (by decide))
    (by decide) rfl

end Autoscaling
